import Mathlib

/-!
Verification of the Knowledge Retrieval and Query Routing Engine of the
BioSphereAI repository (src/app/rag.py, src/app/agents.py), as a shallow
embedding in Lean.

External collaborators are modelled as parameters, following the interface
boundary of the system: the sentence embedding model and the faiss
IndexFlatL2 nearest-neighbor search are numeric components consumed through
an `Externals` bundle, and the documented faiss output shape (valid ordinals
first, then -1 padding when k exceeds the number of stored vectors) is
captured by the predicate `faissOutputOk`.  Python-specific semantics are
made explicit: truthiness of optional strings (`pyTruthy`), negative list
indexing (`pyGet`), the substring test `in` (`pyInStr`), and
`collections.Counter(...).most_common(1)` (`mostCommon1`).
-/

namespace Biosphere

/-! ## Python semantics helpers -/

/-- Python truthiness of an optional string: `None` and `""` are falsy. -/
def pyTruthy : Option String → Bool
  | none => false
  | some s => !(s == "")

/-- Python list indexing `l[i]`: negative indices count from the end;
out-of-range access (an IndexError in Python) is `none`. -/
def pyGet (l : List α) (i : Int) : Option α :=
  if 0 ≤ i then l.get? i.toNat
  else if -i ≤ (l.length : Int) then l.get? (l.length - (-i).toNat)
  else none

/-- Does the character list `hs` start with `ns`? (helper for `pyInStr`). -/
def startsWithChars : List Char → List Char → Bool
  | _, [] => true
  | [], _ :: _ => false
  | a :: as, b :: bs => a == b && startsWithChars as bs

/-- Does the character list `hs` contain `ns` as a contiguous run? -/
def containsChars : List Char → List Char → Bool
  | [], ns => ns.isEmpty
  | h :: t, ns => startsWithChars (h :: t) ns || containsChars t ns

/-- The Python substring test `needle in haystack`. -/
def pyInStr (needle haystack : String) : Bool :=
  containsChars haystack.toList needle.toList

/-- The Python `str.lower()` for the ASCII texts this system handles,
written over the character list so it evaluates by kernel reduction. -/
def pyLower (s : String) : String := String.mk (s.toList.map Char.toLower)

/-! ## Data model (rag.py)

A `Doc` is one retrievable unit, mirroring the dicts built by
`RAGSystem._create_documents`: location_info docs carry `content`,
`location` and `type`; variable_info docs additionally carry the variable
and column names.  An absent dict key is `none`. -/

structure Doc where
  content : String
  location : Option String := none
  varName : Option String := none
  column : Option String := none
  type : String
deriving DecidableEq, Repr

/-- Scalar summary statistics for one underlying data column, as returned by
`DataLoader.get_variable_summary` after the scalar reduction applied in
`_create_documents` (mean-of-means, min-of-mins, max-of-maxes); the numeric
type is a parameter since floating point is outside the embedding. -/
structure StatBlock (N : Type) where
  mean : N
  min : N
  max : N
  std : N

/-- One monitored zone as seen through the data-access collaborator
(`DataLoader`): its name, declared variables in order, optional data
timeframe (already rendered to strings), and per-variable summaries.
`summary v` lists (column, stats) pairs in dict insertion order; the empty
list models the falsy cases (`None` or an empty dict). -/
structure LocationData (N : Type) where
  name : String
  vars : List String
  timeframe : Option (String × String)
  summary : String → List (String × StatBlock N)

/-- The data-access collaborator: `get_locations()` in registration order,
with the per-location data attached. -/
structure DataLoaderView (N : Type) where
  locations : List (LocationData N)

/-- External numeric collaborators: the sentence embedding model (`embed`),
the faiss IndexFlatL2 search over a list of stored vectors (`searchIdx`,
returning ordinals as signed integers since faiss pads with -1), and the
fixed 2-decimal float rendering used by the corpus builder (`fmt2`). -/
structure Externals (V N : Type) where
  embed : String → V
  searchIdx : List V → V → Nat → List Int
  fmt2 : N → String

/-- Shape of the output of `faiss.IndexFlatL2.search` on an index holding
`n` vectors with `k` requested neighbors: exactly `k` slots, the first
`min k n` of them valid ordinals in `[0, n)`, the rest padded with -1. -/
def faissOutputOk (n k : Nat) (out : List Int) : Bool :=
  out.length == k &&
  (out.take (min k n)).all (fun i => decide (0 ≤ i) && decide (i < (n : Int))) &&
  (out.drop (min k n)).all (fun i => i == -1)

/-! ## Corpus builder (RAGSystem._create_documents) -/

/-- Content of a location_info record (lines 38-44 of rag.py). -/
def locationInfoContent (loc : LocationData N) : String :=
  let doc := "Location: " ++ loc.name ++ ". "
  let doc := doc ++ "Variables available: " ++ String.intercalate ", " loc.vars ++ ". "
  match loc.timeframe with
  | some tf => doc ++ "Data available from " ++ tf.1 ++ " to " ++ tf.2 ++ "."
  | none => doc

/-- Content of a variable_info record (lines 63-66 of rag.py). -/
def variableInfoContent (fmt2 : N → String) (locName v col : String) (st : StatBlock N) : String :=
  "Variable: " ++ v ++ " (" ++ col ++ ") in " ++ locName ++ ". " ++
  "Mean value: " ++ fmt2 st.mean ++ ", " ++
  "Range: " ++ fmt2 st.min ++ " to " ++ fmt2 st.max ++ ", " ++
  "Standard deviation: " ++ fmt2 st.std ++ "."

/-- The location_info record appended for a zone (lines 46-50 of rag.py). -/
def locationInfoDoc (loc : LocationData N) : Doc :=
  { content := locationInfoContent loc
    location := some loc.name
    type := "location_info" }

/-- The variable_info record appended for one (variable, column) pair
(lines 68-74 of rag.py). -/
def variableInfoDoc (fmt2 : N → String) (loc : LocationData N) (v : String)
    (cs : String × StatBlock N) : Doc :=
  { content := variableInfoContent fmt2 loc.name v cs.1 cs.2
    location := some loc.name
    varName := some v
    column := some cs.1
    type := "variable_info" }

/-- `RAGSystem._create_documents` (lines 32-76 of rag.py): nested loops over
locations, their variables and the summary columns, appending records to an
accumulator list. -/
def createDocuments (fmt2 : N → String) (dl : DataLoaderView N) : List Doc :=
  dl.locations.foldl (fun documents location =>
    let documents := documents ++ [locationInfoDoc location]
    location.vars.foldl (fun documents v =>
      (location.summary v).foldl (fun documents cs =>
        documents ++ [variableInfoDoc fmt2 location v cs]) documents) documents) []

/-- `concatMap f l` concatenates `f x` over the elements of `l` in order
(used to state the deterministic order of the built corpus). -/
def concatMap (f : α → List β) : List α → List β
  | [] => []
  | x :: xs => f x ++ concatMap f xs

/-- The block of records one zone contributes: its zone overview record
first, then one variable_info record per (variable, column) pair in
declaration order. -/
def locationDocs (fmt2 : N → String) (loc : LocationData N) : List Doc :=
  locationInfoDoc loc ::
    concatMap (fun v => (loc.summary v).map (variableInfoDoc fmt2 loc v)) loc.vars

/-! ## Embedding index and retrieval engine (RAGSystem) -/

/-- Process state of `RAGSystem`: the data loader, the built record list,
the faiss index modelled as the list of stored vectors at matching ordinals
(`none` while absent), and the initialized flag (field `built` models
`self.initialized`). -/
structure RAGSys (V N : Type) where
  dataLoader : DataLoaderView N
  documents : List Doc
  index : Option (List V)
  built : Bool

/-- `RAGSystem._create_index` (lines 78-92 of rag.py): on an empty record
list it returns without touching `self.index`; otherwise it stores one
embedding vector per record, in record order. -/
def createIndex (E : Externals V N) (documents : List Doc)
    (prevIndex : Option (List V)) : Option (List V) :=
  if documents.isEmpty then prevIndex
  else some (documents.map (fun d => E.embed d.content))

/-- `RAGSystem.initialize` (lines 16-30 of rag.py): a no-op when already
initialized, otherwise builds the record list and the index and sets the
flag. -/
def RAGSys.build (E : Externals V N) (s : RAGSys V N) : RAGSys V N :=
  if s.built then s
  else
    let documents := createDocuments E.fmt2 s.dataLoader
    { s with
      documents := documents
      index := createIndex E documents s.index
      built := true }

/-- The result-collection loop of `RAGSystem.query` (lines 109-113 of
rag.py): for each returned ordinal, if `idx < len(documents)` the record at
that index is appended — Python indexing, so the -1 padding slots pass the
guard and fetch the LAST record. -/
def retrieveResults (indices : List Int) (documents : List Doc) : List Doc :=
  indices.foldl (fun results idx =>
    if idx < (documents.length : Int) then
      match pyGet documents idx with
      | some d => results ++ [d]
      | none => results
    else results) []

/-- `RAGSystem.query` (lines 94-114 of rag.py): lazy build, then return `[]`
when no index exists, else search the index and collect records.  The
returned pair carries the (possibly lazily built) state. -/
def RAGSys.query (E : Externals V N) (s : RAGSys V N) (queryText : String)
    (topK : Nat) : RAGSys V N × List Doc :=
  let s2 := if s.built then s else RAGSys.build E s
  match s2.index with
  | none => (s2, [])
  | some idx =>
    (s2, retrieveResults (E.searchIdx idx (E.embed queryText) topK) s2.documents)

/-- `RAGSystem.get_context_for_query` (lines 116-127 of rag.py): query with
top_k=5, post-filter by location when the argument is truthy, join the
remaining contents with newlines. -/
def RAGSys.getContextForQuery (E : Externals V N) (s : RAGSys V N)
    (queryText : String) (location : Option String) : RAGSys V N × String :=
  let p := RAGSys.query E s queryText 5
  let results :=
    if pyTruthy location then p.2.filter (fun doc => doc.location == location)
    else p.2
  (p.1, String.intercalate "\n" (results.map Doc.content))

/-! ## Responder session (agents.py, Agent.query) -/

/-- One conversation-history entry: the question, and the answer once
patched in (`none` while pending — the dict key is absent). -/
structure HistEntry where
  user : String
  assistant : Option String := none
deriving DecidableEq, Repr

/-- Outcome of the call to the external generation service: an HTTP
response with its status, the optional parsed JSON "response" field and the
raw body text, or a transport-level exception. -/
inductive GenOutcome where
  | resp (status : Nat) (jsonResponse : Option String) (text : String)
  | exn
deriving DecidableEq, Repr

/-- Patch the answer into the last history entry, modelling the assignment
to `conversation_history[-1]` in Agent.query (line 69 of agents.py). -/
def patchLast (h : List HistEntry) (ans : String) : List HistEntry :=
  h.dropLast ++ ((h.getLast?).map (fun e => { e with assistant := some ans })).toList

/-- `Agent.query` (lines 34-79 of agents.py), restricted to its effect on
the conversation history and its returned string: append the pending entry;
on HTTP 200 read the "response" field (with its default), patch the entry
and return the answer; on any other status return the connection apology
with the raw error appended; on an exception return the fixed apology.  The
two failure branches return without patching. -/
def Agent.queryStep (history : List HistEntry) (q : String) (oc : GenOutcome) :
    List HistEntry × String :=
  let history2 := history ++ [{ user := q }]
  match oc with
  | .resp status jsonResponse text =>
    if status == 200 then
      let answer := jsonResponse.getD "Sorry, I could not generate a response."
      (patchLast history2 answer, answer)
    else
      (history2,
        "I\x27m having trouble connecting to my knowledge base. Please try again later. (Error: "
          ++ toString status ++ " - " ++ text ++ ")")
  | .exn =>
    (history2, "I\x27m having technical difficulties. Please try again later.")

/-! ## Zone router (AgentSystem._identify_location_from_query) -/

/-- The registered agents of `AgentSystem.__init__` (lines 88-105 of
agents.py), in dict insertion order. -/
def agentNames : List String := ["Desert", "Rainforest", "Ocean", "LEO-W"]

/-- The Step-1 keyword scan (lines 132-136 of agents.py): first registered
location whose lower-cased name occurs in the lower-cased query. -/
def scanAgents (agents : List String) (queryLower : String) : Option String :=
  match agents with
  | [] => none
  | location :: rest =>
    if pyInStr (pyLower location) queryLower then some location
    else scanAgents rest queryLower

/-- Occurrence count of `x` in `xs` (the count held by
`collections.Counter`). -/
def countOcc (xs : List String) (x : String) : Nat :=
  xs.countP (fun y => y == x)

/-- The keys of `collections.Counter(xs)` in insertion order, i.e. in order
of first occurrence in `xs`. -/
def dedupFirst (xs : List String) : List String :=
  xs.foldl (fun acc x => if acc.contains x then acc else acc ++ [x]) []

/-- `collections.Counter(xs).most_common(1)[0][0]` for nonempty `xs` (and
`none` for empty `xs`): an element of maximal count, ties resolved in favor
of the earliest first occurrence (heapq.nlargest is stable over the
insertion-ordered Counter items). -/
def mostCommon1 (xs : List String) : Option String :=
  (dedupFirst xs).foldl (fun best x =>
    match best with
    | none => some x
    | some b => if countOcc xs b < countOcc xs x then some x else some b) none

/-- `AgentSystem._identify_location_from_query` (lines 129-147 of
agents.py), with the Step-2 retrieval hits passed in as `results`: keyword
scan first; else, if there are hits and at least one carries a location,
the most common location among them; else no location. -/
def identifyLocationFrom (agents : List String) (results : List Doc)
    (queryText : String) : Option String :=
  match scanAgents agents (pyLower queryText) with
  | some location => some location
  | none =>
    if results.isEmpty then none
    else
      let locations := results.filterMap Doc.location
      if locations.isEmpty then none
      else mostCommon1 locations

/-- `AgentSystem._identify_location_from_query` wired to the retrieval
engine: the Step-2 hits are `rag_system.query(query, top_k=2)`. -/
def identifyLocationFromQuery (E : Externals V N) (agents : List String)
    (s : RAGSys V N) (queryText : String) : Option String :=
  identifyLocationFrom agents (RAGSys.query E s queryText 2).2 queryText

/-! ## Concrete fixtures for witnesses and counterexamples -/

/-- External collaborators for an empty corpus: the embedding values and
search output are irrelevant since no index is ever built. -/
def E0 : Externals Int Int :=
  { embed := fun _ => 0
    searchIdx := fun _ _ _ => []
    fmt2 := fun n => toString n }

/-- A data loader with no locations at all: the built corpus is empty. -/
def emptyDL : DataLoaderView Int := { locations := [] }

/-- A freshly constructed `RAGSystem` (the `__init__` state): no documents,
no index, not yet initialized. -/
def freshSys (dl : DataLoaderView Int) : RAGSys Int Int :=
  { dataLoader := dl, documents := [], index := none, built := false }

/-- The variable_info record of the spec scenario: Desert temperature. -/
def desertDoc : Doc :=
  { content := "Variable: Temperature (temp_c) in Desert. Mean value: 30.00, Range: 20.00 to 40.00, Standard deviation: 5.00."
    location := some "Desert"
    varName := some "Temperature"
    column := some "temp_c"
    type := "variable_info" }

/-- A location_info record for the Ocean zone. -/
def oceanDoc : Doc :=
  { content := "Location: Ocean. Variables available: pH, Temperature, Salinity, Dissolved oxygen. "
    location := some "Ocean"
    type := "location_info" }

/-- External collaborators over a one-record corpus: `searchIdx` returns the
faiss IndexFlatL2 output for a top_k=5 search over a single stored vector,
which is the sole valid ordinal followed by four -1 padding slots. -/
def E1 : Externals Int Int :=
  { embed := fun _ => 0
    searchIdx := fun _ _ _ => [0, -1, -1, -1, -1]
    fmt2 := fun n => toString n }

/-- A built `RAGSystem` over the one-record Desert corpus. -/
def sys1 : RAGSys Int Int :=
  { dataLoader := emptyDL
    documents := [desertDoc]
    index := some [0]
    built := true }

/-- A zone with one summarized variable (fixture for the corpus-builder
witness). -/
def desertLoc : LocationData Int :=
  { name := "Desert"
    vars := ["Temperature"]
    timeframe := some ("2025-02-01", "2025-02-28")
    summary := fun v =>
      if v == "Temperature" then
        [("temp_c", { mean := 30, min := 20, max := 40, std := 5 })]
      else [] }

/-- A zone whose variables all lack computed summaries (fixture for the
corpus-builder witness). -/
def leoLoc : LocationData Int :=
  { name := "LEO-W"
    vars := ["Temperature", "Radiation"]
    timeframe := none
    summary := fun _ => [] }

/-- A two-zone data loader (fixture for the corpus-builder witness). -/
def dlW : DataLoaderView Int := { locations := [desertLoc, leoLoc] }

/-! ## Helper lemmas -/

/-- When the corpus builds to nothing and no index is present, `query`
returns no results, on both the initialized and the lazy-build path. -/
theorem query_snd_empty (E : Externals V N) (s : RAGSys V N)
    (h1 : createDocuments E.fmt2 s.dataLoader = []) (h2 : s.index = none)
    (q : String) (k : Nat) : (RAGSys.query E s q k).2 = [] := by
  by_cases hb : s.built
  · simp [RAGSys.query, hb, h2]
  · simp [RAGSys.query, RAGSys.build, createIndex, hb, h1, h2]

/-! ## Claim theorems -/

/-- C10: `get_context_for_query` applies the zone post-filter only when the
zone argument is truthy; a falsy zone value such as the empty string yields
the same unfiltered context as passing no zone at all. -/
theorem getContext_falsy_zone_unfiltered (E : Externals V N) (s : RAGSys V N)
    (q : String) :
    RAGSys.getContextForQuery E s q (some "") = RAGSys.getContextForQuery E s q none ∧
    (RAGSys.getContextForQuery E s q (some "")).2 =
      String.intercalate "\n" ((RAGSys.query E s q 5).2.map Doc.content) :=
  ⟨rfl, rfl⟩

/-- C8: a second call to the build step on an already-built system is a
no-op — the whole state (record list and vector index included) is
unchanged, hence every search result is unchanged as well. -/
theorem build_idempotent (E : Externals V N) (s : RAGSys V N) :
    RAGSys.build E (RAGSys.build E s) = RAGSys.build E s ∧
    ∀ q k, RAGSys.query E (RAGSys.build E (RAGSys.build E s)) q k =
      RAGSys.query E (RAGSys.build E s) q k := by
  have hb : (RAGSys.build E s).built = true := by
    by_cases h : s.built <;> simp [RAGSys.build, h]
  have h2 : RAGSys.build E (RAGSys.build E s) = RAGSys.build E s := by
    rw [RAGSys.build, if_pos hb]
  exact ⟨h2, fun q k => by rw [h2]⟩

/-- C3 (code bug): on a corpus of 1 record, a top_k=5 search makes faiss pad
its output with -1; the guard `idx < len(documents)` admits -1, and Python
indexing maps it to the LAST record, so `query` returns 5 records (the sole
record repeated) instead of min(top_k, n) = 1 records. -/
theorem query_padding_bug_eval :
    faissOutputOk 1 5 [0, -1, -1, -1, -1] = true ∧
    retrieveResults [0, -1, -1, -1, -1] [desertDoc] =
      [desertDoc, desertDoc, desertDoc, desertDoc, desertDoc] ∧
    (retrieveResults [0, -1, -1, -1, -1] [desertDoc]).length ≠ min 5 1 ∧
    (RAGSys.query E1 sys1 "What is the temperature in the desert?" 5).2 =
      [desertDoc, desertDoc, desertDoc, desertDoc, desertDoc] := by
  refine ⟨rfl, rfl, by decide, rfl⟩

/-- C1 (amended): after `Agent.query` the last history entry always has the
asked question; on HTTP 200 the generated answer is patched into it and
returned; on a non-success status or a transport error an apology string is
returned but the pending entry is NOT patched — its answer stays absent. -/
theorem agentQuery_history_behavior (history : List HistEntry) (q : String)
    (oc : GenOutcome) :
    (∀ status js text, oc = .resp status js text → status = 200 →
      (Agent.queryStep history q oc).1.getLast? =
        some { user := q, assistant := some (js.getD "Sorry, I could not generate a response.") } ∧
      (Agent.queryStep history q oc).2 = js.getD "Sorry, I could not generate a response.") ∧
    (∀ status js text, oc = .resp status js text → status ≠ 200 →
      (Agent.queryStep history q oc).1.getLast? = some { user := q, assistant := none } ∧
      (Agent.queryStep history q oc).2 =
        "I\x27m having trouble connecting to my knowledge base. Please try again later. (Error: "
          ++ toString status ++ " - " ++ text ++ ")") ∧
    (oc = .exn →
      (Agent.queryStep history q oc).1.getLast? = some { user := q, assistant := none } ∧
      (Agent.queryStep history q oc).2 =
        "I\x27m having technical difficulties. Please try again later.") := by
  refine ⟨?_, ?_, ?_⟩
  · rintro status js text rfl rfl
    simp [Agent.queryStep, patchLast]
  · rintro status js text rfl hne
    simp [Agent.queryStep, hne]
  · rintro rfl
    simp [Agent.queryStep]

/-- C1 witness: a successful generation patches and returns the answer. -/
theorem agentQuery_history_behavior_witness :
    (Agent.queryStep [] "hi" (GenOutcome.resp 200 (some "The desert is hot.") "")).1.getLast? =
      some { user := "hi", assistant := some "The desert is hot." } ∧
    (Agent.queryStep [] "hi" (GenOutcome.resp 200 (some "The desert is hot.") "")).2 =
      "The desert is hot." :=
  (agentQuery_history_behavior [] "hi"
    (GenOutcome.resp 200 (some "The desert is hot.") "")).1 200
    (some "The desert is hot.") "" rfl rfl

/-- C1 counterexample: after a completed `Agent.query` whose generation call
came back with HTTP 500, the last history entry still has no answer — the
claim that it is patched with a non-null apology string fails. -/
theorem agentQuery_failure_leaves_entry_unpatched :
    (Agent.queryStep [] "hi" (GenOutcome.resp 500 none "boom")).1 =
      [{ user := "hi", assistant := none }] ∧
    (Agent.queryStep [] "hi" (GenOutcome.resp 500 none "boom")).2 =
      "I\x27m having trouble connecting to my knowledge base. Please try again later. (Error: 500 - boom)" :=
  ⟨rfl, rfl⟩

/-- C2 counterexample: called on an empty corpus, the build step completes
normally (the initialized flag is set) without creating an index — it
returns silently instead of raising a build error; the source has no raise
path at all in `_create_index`. -/
theorem build_empty_returns_silently :
    (RAGSys.build E0 (freshSys emptyDL)).index = none ∧
    (RAGSys.build E0 (freshSys emptyDL)).built = true :=
  ⟨rfl, rfl⟩

/-- C2 (amended): for an empty record sequence the build step returns
without creating an index and without error, and all later queries detect
the absent index and return no results. -/
theorem build_empty_silent_no_index (E : Externals V N) (s : RAGSys V N)
    (h1 : createDocuments E.fmt2 s.dataLoader = []) (h2 : s.index = none) :
    (RAGSys.build E s).index = none ∧
    (RAGSys.build E s).built = true ∧
    ∀ q k, (RAGSys.query E s q k).2 = [] := by
  refine ⟨?_, ?_, fun q k => query_snd_empty E s h1 h2 q k⟩
  · by_cases hb : s.built <;> simp [RAGSys.build, createIndex, hb, h1, h2]
  · by_cases hb : s.built <;> simp [RAGSys.build, hb]

/-- C2 witness: the empty-location data loader builds an empty corpus. -/
theorem build_empty_silent_no_index_witness :
    (RAGSys.build E0 (freshSys emptyDL)).index = none ∧
    (RAGSys.build E0 (freshSys emptyDL)).built = true ∧
    (RAGSys.query E0 (freshSys emptyDL) "any question" 5).2 = [] :=
  ⟨(build_empty_silent_no_index E0 (freshSys emptyDL) rfl rfl).1,
   (build_empty_silent_no_index E0 (freshSys emptyDL) rfl rfl).2.1,
   (build_empty_silent_no_index E0 (freshSys emptyDL) rfl rfl).2.2 "any question" 5⟩

/-- String.intercalate on no pieces is the empty string. -/
theorem intercalate_nil_eq_empty (s : String) : String.intercalate s [] = "" := rfl

/-- C4 (amended): with an empty corpus, context retrieval returns the empty
string for every query and zone argument, and zone identification returns
none for every input whose lower-cased text contains no registered zone
name (the Step-1 keyword scan runs regardless of the corpus). -/
theorem empty_corpus_degrades (E : Externals V N) (s : RAGSys V N)
    (agents : List String)
    (h1 : createDocuments E.fmt2 s.dataLoader = []) (h2 : s.index = none) :
    (∀ q loc, (RAGSys.getContextForQuery E s q loc).2 = "") ∧
    (∀ q, scanAgents agents (pyLower q) = none →
      identifyLocationFromQuery E agents s q = none) := by
  constructor
  · intro q loc
    have h := query_snd_empty E s h1 h2 q 5
    simp [RAGSys.getContextForQuery, h, intercalate_nil_eq_empty]
  · intro q hscan
    have h := query_snd_empty E s h1 h2 q 2
    simp [identifyLocationFromQuery, identifyLocationFrom, hscan, h]

/-- C4 counterexample: even with an empty corpus, a query that mentions a
registered zone name is resolved to that zone by the keyword scan — zone
identification is NOT none for every input. -/
theorem empty_corpus_keyword_still_routes :
    identifyLocationFromQuery E0 agentNames (freshSys emptyDL)
      "tell me about the desert" = some "Desert" ∧
    (RAGSys.query E0 (freshSys emptyDL) "tell me about the desert" 2).2 = [] := by
  constructor <;> decide

/-- C4 witness: a zone-free query on the empty corpus yields empty context
and no identified zone. -/
theorem empty_corpus_degrades_witness :
    (RAGSys.getContextForQuery E0 (freshSys emptyDL) "any question" (some "Desert")).2 = "" ∧
    identifyLocationFromQuery E0 agentNames (freshSys emptyDL)
      "what is the warmest biome" = none :=
  ⟨(empty_corpus_degrades E0 (freshSys emptyDL) agentNames rfl rfl).1
      "any question" (some "Desert"),
   (empty_corpus_degrades E0 (freshSys emptyDL) agentNames rfl rfl).2
      "what is the warmest biome" (by decide)⟩

/-- When no registered name occurs in the lower-cased query, the Step-1
scan finds nothing. -/
theorem scanAgents_eq_none (agents : List String) (ql : String)
    (h : ∀ a ∈ agents, pyInStr (pyLower a) ql = false) :
    scanAgents agents ql = none := by
  induction agents with
  | nil => rfl
  | cons a rest ih =>
    simp only [scanAgents, h a (List.mem_cons_self a rest), if_false, Bool.false_eq_true]
    exact ih (fun x hx => h x (List.mem_cons_of_mem a hx))

/-- The Step-1 scan returns the first registry entry whose lower-cased name
occurs in the query, regardless of anything after it. -/
theorem scanAgents_first_match :
    ∀ (agents : List String) (ql : String) (i : Nat) (hi : i < agents.length),
      pyInStr (pyLower (agents.get ⟨i, hi⟩)) ql = true →
      (∀ j (hj : j < i), pyInStr (pyLower (agents.get ⟨j, Nat.lt_trans hj hi⟩)) ql = false) →
      scanAgents agents ql = some (agents.get ⟨i, hi⟩) := by
  intro agents
  induction agents with
  | nil => intro ql i hi _ _; exact absurd hi (Nat.not_lt_zero i)
  | cons a rest ih =>
    intro ql i hi hm hf
    cases i with
    | zero =>
      simp only [List.get] at hm ⊢
      simp [scanAgents, hm]
    | succ j =>
      have h0 : pyInStr (pyLower a) ql = false := hf 0 (Nat.succ_pos j)
      have hrec := ih ql j (Nat.lt_of_succ_lt_succ hi) hm
        (fun k hk => hf (k + 1) (Nat.succ_lt_succ hk))
      simp only [scanAgents, h0, if_false, Bool.false_eq_true]
      exact hrec

/-- C6: when at least one registered zone name appears (case-insensitively)
in the query text, zone identification returns the first such zone in
registry order, for every retrieval-hit list — even when a different zone
name occurs earlier in the text. -/
theorem identify_keyword_first_in_registry (agents : List String)
    (results : List Doc) (q : String) (i : Nat) (hi : i < agents.length)
    (hmatch : pyInStr (pyLower (agents.get ⟨i, hi⟩)) (pyLower q) = true)
    (hfirst : ∀ j (hj : j < i),
      pyInStr (pyLower (agents.get ⟨j, Nat.lt_trans hj hi⟩)) (pyLower q) = false) :
    identifyLocationFrom agents results q = some (agents.get ⟨i, hi⟩) := by
  have h := scanAgents_first_match agents (pyLower q) i hi hmatch hfirst
  simp [identifyLocationFrom, h]

/-- C6 witness: the query mentions Ocean before Desert, yet Desert wins
because it is registered first. -/
theorem identify_keyword_first_in_registry_witness :
    identifyLocationFrom agentNames [] "Is the ocean warmer than the desert?" =
      some "Desert" :=
  identify_keyword_first_in_registry agentNames []
    "Is the ocean warmer than the desert?" 0 (by decide) (by decide)
    (fun j hj => absurd hj (Nat.not_lt_zero j))

/-- Most-common-element computation on a list of at most two entries: it
returns an element of maximal count sitting at the head (index 0), the
deterministic first-occurrence tie-break. -/
theorem mostCommon1_spec_le_two (locs : List String) (hne : locs ≠ [])
    (hlen : locs.length ≤ 2) :
    ∃ z, mostCommon1 locs = some z ∧ z ∈ locs ∧
      (∀ w ∈ locs, countOcc locs w ≤ countOcc locs z) ∧
      locs.indexOf z = 0 := by
  match locs with
  | [] => exact absurd rfl hne
  | [a] =>
    refine ⟨a, rfl, by simp, ?_, by simp⟩
    intro w hw
    simp only [List.mem_singleton] at hw
    subst hw
    exact le_refl _
  | [a, b] =>
    have hmc : mostCommon1 [a, b] = some a := by
      by_cases h : b = a
      · subst h
        simp [mostCommon1, dedupFirst, List.contains, List.elem]
      · have hba : (b == a) = false := beq_eq_false_iff_ne.mpr h
        have hab : (a == b) = false := beq_eq_false_iff_ne.mpr (Ne.symm h)
        have hca : countOcc [a, b] a = 1 := by
          simp [countOcc, List.countP_cons, hba]
        have hcb : countOcc [a, b] b = 1 := by
          simp [countOcc, List.countP_cons, hab]
        simp [mostCommon1, dedupFirst, List.contains, List.elem, h, hca, hcb]
    refine ⟨a, hmc, by simp, ?_, by simp⟩
    intro w hw
    simp only [List.mem_cons, List.mem_singleton, List.not_mem_nil, or_false] at hw
    rcases hw with h1 | h1
    · rw [h1]
    · rw [h1]
      by_cases h : b = a
      · rw [h]
      · have hba : (b == a) = false := beq_eq_false_iff_ne.mpr h
        have hab : (a == b) = false := beq_eq_false_iff_ne.mpr (Ne.symm h)
        simp [countOcc, List.countP_cons, hba, hab]
  | _ :: _ :: _ :: _ =>
    exfalso
    simp only [List.length_cons] at hlen
    omega

/-- C5: for a query in which no registered zone name occurs, zone
identification over at most two retrieval hits carrying at least one zone
returns a most frequent zone among the hits, with ties resolved in favor
of the zone whose first occurrence comes earliest in the hit list. -/
theorem identify_majority_vote (agents : List String) (results : List Doc)
    (q : String)
    (hscan : ∀ a ∈ agents, pyInStr (pyLower a) (pyLower q) = false)
    (hlen : results.length ≤ 2)
    (hne : results.filterMap Doc.location ≠ []) :
    ∃ z, identifyLocationFrom agents results q = some z ∧
      z ∈ results.filterMap Doc.location ∧
      (∀ w ∈ results.filterMap Doc.location,
        countOcc (results.filterMap Doc.location) w ≤
          countOcc (results.filterMap Doc.location) z) ∧
      (∀ w ∈ results.filterMap Doc.location,
        countOcc (results.filterMap Doc.location) w =
          countOcc (results.filterMap Doc.location) z →
        (results.filterMap Doc.location).indexOf z ≤
          (results.filterMap Doc.location).indexOf w) := by
  have hscan2 : scanAgents agents (pyLower q) = none :=
    scanAgents_eq_none agents (pyLower q) hscan
  have hres : results ≠ [] := by
    intro h
    exact hne (by simp [h])
  have hlocs_len : (results.filterMap Doc.location).length ≤ 2 :=
    le_trans (List.length_filterMap_le _ _) hlen
  have hid : identifyLocationFrom agents results q =
      mostCommon1 (results.filterMap Doc.location) := by
    simp [identifyLocationFrom, hscan2, List.isEmpty_iff, hres, hne]
  obtain ⟨z, hz1, hz2, hz3, hz4⟩ :=
    mostCommon1_spec_le_two (results.filterMap Doc.location) hne hlocs_len
  refine ⟨z, by rw [hid, hz1], hz2, hz3, fun w _ _ => ?_⟩
  rw [hz4]
  exact Nat.zero_le _

/-- C5 witness: a zone-free query with one Ocean hit and one Desert hit
resolves by the documented tie-break to the first-listed hit, Ocean. -/
theorem identify_majority_vote_witness :
    ∃ z, identifyLocationFrom agentNames [oceanDoc, desertDoc]
        "which biome is the warmest" = some z ∧
      z ∈ [oceanDoc, desertDoc].filterMap Doc.location ∧
      (∀ w ∈ [oceanDoc, desertDoc].filterMap Doc.location,
        countOcc ([oceanDoc, desertDoc].filterMap Doc.location) w ≤
          countOcc ([oceanDoc, desertDoc].filterMap Doc.location) z) ∧
      (∀ w ∈ [oceanDoc, desertDoc].filterMap Doc.location,
        countOcc ([oceanDoc, desertDoc].filterMap Doc.location) w =
          countOcc ([oceanDoc, desertDoc].filterMap Doc.location) z →
        ([oceanDoc, desertDoc].filterMap Doc.location).indexOf z ≤
          ([oceanDoc, desertDoc].filterMap Doc.location).indexOf w) :=
  identify_majority_vote agentNames [oceanDoc, desertDoc]
    "which biome is the warmest" (by decide) (by decide) (by decide)

/-- C7 (amended): for every non-empty supplied zone, the context is exactly
the newline-join of the contents of the zone-matching retrieval hits in
retrieval order; every contributing record has that zone, and when nothing
matches the result is the empty string. -/
theorem getContext_zone_filter (E : Externals V N) (s : RAGSys V N)
    (q : String) (loc : String) (hloc : loc ≠ "") :
    (RAGSys.getContextForQuery E s q (some loc)).2 =
      String.intercalate "\n"
        (((RAGSys.query E s q 5).2.filter
          (fun d => d.location == some loc)).map Doc.content) ∧
    (∀ d ∈ (RAGSys.query E s q 5).2.filter (fun d => d.location == some loc),
      d.location = some loc) ∧
    ((RAGSys.query E s q 5).2.filter (fun d => d.location == some loc) = [] →
      (RAGSys.getContextForQuery E s q (some loc)).2 = "") := by
  have ht : pyTruthy (some loc) = true := by
    simp [pyTruthy, hloc]
  refine ⟨?_, ?_, ?_⟩
  · simp [RAGSys.getContextForQuery, ht]
  · intro d hd
    have h := (List.mem_filter.mp hd).2
    simpa using h
  · intro hf
    simp [RAGSys.getContextForQuery, ht, hf, intercalate_nil_eq_empty]

/-- C7 counterexample: with the supplied zone being the falsy empty string,
the filter is bypassed — the context is non-empty although no retrieved
record has zone equal to the supplied value. -/
theorem getContext_empty_zone_filter_bypassed :
    ((RAGSys.query E1 sys1 "temperature" 5).2.filter
      (fun d => d.location == some "")) = [] ∧
    (RAGSys.getContextForQuery E1 sys1 "temperature" (some "")).2 ≠ "" :=
  ⟨rfl, by decide⟩

/-- C7 witness: the Desert filter over the one-record Desert corpus. -/
theorem getContext_zone_filter_witness :
    (RAGSys.getContextForQuery E1 sys1 "temperature" (some "Desert")).2 =
      String.intercalate "\n"
        (((RAGSys.query E1 sys1 "temperature" 5).2.filter
          (fun d => d.location == some "Desert")).map Doc.content) ∧
    (∀ d ∈ (RAGSys.query E1 sys1 "temperature" 5).2.filter
        (fun d => d.location == some "Desert"),
      d.location = some "Desert") ∧
    ((RAGSys.query E1 sys1 "temperature" 5).2.filter
        (fun d => d.location == some "Desert") = [] →
      (RAGSys.getContextForQuery E1 sys1 "temperature" (some "Desert")).2 = "") :=
  getContext_zone_filter E1 sys1 "temperature" "Desert" (by decide)

/-- Folding append-of-singletons from any accumulator appends the map. -/
theorem foldl_append_singleton (f : α → β) :
    ∀ (l : List α) (acc : List β),
      l.foldl (fun ds x => ds ++ [f x]) acc = acc ++ l.map f := by
  intro l
  induction l with
  | nil => intro acc; simp
  | cons x xs ih =>
    intro acc
    simp only [List.foldl_cons, List.map_cons]
    rw [ih]
    simp

/-- Membership in `concatMap`. -/
theorem mem_concatMap (f : α → List β) (y : β) :
    ∀ (l : List α), y ∈ concatMap f l ↔ ∃ x ∈ l, y ∈ f x := by
  intro l
  induction l with
  | nil => simp [concatMap]
  | cons x xs ih => simp [concatMap, List.mem_append, ih]

/-- The two inner loops of `_create_documents` for one location append
exactly its variable_info records, per variable in declaration order and
per summary column in dict order. -/
theorem varsFold_eq (fmt2 : N → String) (loc : LocationData N) :
    ∀ (vs : List String) (acc : List Doc),
      vs.foldl (fun documents v =>
        (loc.summary v).foldl (fun documents cs =>
          documents ++ [variableInfoDoc fmt2 loc v cs]) documents) acc =
      acc ++ concatMap (fun v => (loc.summary v).map (variableInfoDoc fmt2 loc v)) vs := by
  intro vs
  induction vs with
  | nil => intro acc; simp [concatMap]
  | cons v vs ih =>
    intro acc
    simp only [List.foldl_cons, concatMap]
    rw [foldl_append_singleton (variableInfoDoc fmt2 loc v) (loc.summary v) acc, ih]
    simp

/-- The outer loop of `_create_documents` from any accumulator appends the
per-location blocks in order. -/
theorem createDocuments_aux (fmt2 : N → String) :
    ∀ (locs : List (LocationData N)) (acc : List Doc),
      locs.foldl (fun documents location =>
        location.vars.foldl (fun documents v =>
          (location.summary v).foldl (fun documents cs =>
            documents ++ [variableInfoDoc fmt2 location v cs]) documents)
          (documents ++ [locationInfoDoc location])) acc =
      acc ++ concatMap (locationDocs fmt2) locs := by
  intro locs
  induction locs with
  | nil => intro acc; simp [concatMap]
  | cons loc locs ih =>
    intro acc
    simp only [List.foldl_cons]
    rw [varsFold_eq fmt2 loc loc.vars (acc ++ [locationInfoDoc loc]), ih]
    simp [locationDocs, concatMap]

/-- C9: the corpus builder emits, deterministically, the zones in
registration order, each contributing its zone_info record first and then
one variable_info record per (variable, column) pair in declaration order;
a variable whose summary is absent contributes no variable_info record (and
no error — the loop body simply runs zero times). -/
theorem createDocuments_deterministic_order (fmt2 : N → String)
    (dl : DataLoaderView N) :
    createDocuments fmt2 dl = concatMap (locationDocs fmt2) dl.locations ∧
    ∀ (loc : LocationData N) (v : String), loc.summary v = [] →
      ∀ d ∈ locationDocs fmt2 loc, d.varName ≠ some v := by
  constructor
  · have h := createDocuments_aux fmt2 dl.locations []
    simpa [createDocuments] using h
  · intro loc v hsum d hd hvar
    simp only [locationDocs, List.mem_cons] at hd
    rcases hd with rfl | hd
    · simp [locationInfoDoc] at hvar
    · rw [mem_concatMap] at hd
      obtain ⟨v2, _, hdv⟩ := hd
      obtain ⟨cs, hcs, rfl⟩ := List.mem_map.mp hdv
      simp only [variableInfoDoc, Option.some.injEq] at hvar
      subst hvar
      rw [hsum] at hcs
      exact List.not_mem_nil _ hcs

/-- C9 witness: the two-zone loader builds in order, and the summary-less
Radiation variable of LEO-W yields no variable_info record. -/
theorem createDocuments_deterministic_order_witness :
    createDocuments (fun n : Int => toString n) dlW =
      concatMap (locationDocs (fun n : Int => toString n)) dlW.locations ∧
    (locationInfoDoc leoLoc).varName ≠ some "Radiation" :=
  ⟨(createDocuments_deterministic_order (fun n : Int => toString n) dlW).1,
   (createDocuments_deterministic_order (fun n : Int => toString n) dlW).2
     leoLoc "Radiation" rfl (locationInfoDoc leoLoc) (by simp [locationDocs])⟩

end Biosphere
